import Mathlib

/-!
Shallow embedding of the btleplug per-device session engine
(`src/bluez/adapter/peripheral.rs`) and the WinRT manager
(`src/winrtble/manager.rs`), with theorems settling the spec claims.

Conventions of the embedding:
* machine integers (`u8`, `u16`, `i8`, file descriptors, errnos) are `Nat`
  (or `Int` for the signed TX power), with masking written explicitly where
  the code relies on wrap-around;
* the replay queue `message_queue : VecDeque<ACLData>` is a `List` whose
  HEAD is the BACK of the deque: `push_back` is `cons` and `pop_back` takes
  the head, exactly mirroring the loop in `handle_device_message`;
* fallible syscalls and channel receives are abstracted by an environment
  record holding each step's result, so `connect` becomes a pure function
  of the session state and that environment;
* a `.unwrap()` on an error value in the source is modelled by the
  distinguished outcome `ConnectOutcome.diverge`.
-/

/-- Address type tag of a device address.
Modelled from the spec: the `api` crate is not under `src/`; the spec calls it
an "address-type tag (public/random)" and `handle_device_message` decodes
`bdaddr_type == 1` as `Random`, anything else as `Public`. -/
inductive AddressType
  | Public
  | Random
deriving DecidableEq, Repr

/-- Numeric encoding of an address type, as used for `l2_bdaddr_type`
(`typ.num()` in the source): `Random ↦ 1`, `Public ↦ 0`.
Modelled from the spec: `api::AddressType::num` is not under `src/`; the
encoding is fixed by the decode direction at peripheral.rs:111-115. -/
def AddressType.num : AddressType → Nat
  | .Public => 0
  | .Random => 1

/-- Device hardware address of 6 bytes (`api::BDAddr`).
Modelled from the spec: "6-byte hardware identifier"; only equality is used
by the embedded code. -/
structure BDAddr where
  bytes : List Nat
deriving DecidableEq, Repr

/-- Aggregated advertisement-derived properties (`api::Properties`), the
fields read and written by `handle_device_message`.
Modelled from the spec for the field list ("discovery count, address type,
has-scan-response flag, optional local name, optional TX power level,
optional manufacturer-specific payload"); the update logic itself is
embedded from peripheral.rs:108-139. -/
structure Properties where
  address_type : AddressType
  discovery_count : Nat
  has_scan_response : Bool
  local_name : Option String
  tx_power_level : Option Int
  manufacturer_data : Option (List Nat)
deriving DecidableEq, Repr

/-- Default properties (`Properties::default()`): zero count, flags clear,
optional fields unset.
Modelled from the spec: the `api` crate's `Default` derive is not under
`src/`. -/
def initialProperties : Properties :=
  { address_type := .Public
    discovery_count := 0
    has_scan_response := false
    local_name := none
    tx_power_level := none
    manufacturer_data := none }

/-- One typed advertisement datum (`hci::LEAdvertisingData`), restricted to
the variants `handle_device_message` inspects; every other variant is the
catch-all `Skipped`. -/
inductive LEAdvertisingData
  | LocalName (name : String)
  | TxPowerLevel (power : Int)
  | ManufacturerSpecific (data : List Nat)
  | Skipped
deriving DecidableEq, Repr

/-- Decoded advertising report (`hci::LEAdvertisingInfo`): address-type byte,
event-type byte and the list of typed advertisement data.  The `bdaddr`
field is omitted: the source asserts it equals the session's own address
(dispatch guard), so all reports modelled here are for the one session. -/
structure LEAdvertisingInfo where
  bdaddr_type : Nat
  evt_type : Nat
  data : List LEAdvertisingData
deriving DecidableEq, Repr

/-- An ACL data packet (`hci::ACLData`): connection handle plus payload. -/
structure ACLData where
  handle : Nat
  data : List Nat
deriving DecidableEq, Repr

/-- Decoded controller event (`hci::Message`), restricted to the variants
`handle_device_message` matches on; everything else is `Other` (ignored). -/
inductive Message
  | LEAdvertisingReport (info : LEAdvertisingInfo)
  | LEConnComplete (handle : Nat)
  | ACLDataPacket (data : ACLData)
  | Other
deriving DecidableEq, Repr

/-- The connection transaction engine's identity (`ACLStream::new(address,
handle, fd)`): the fields `connect` constructs it from. -/
structure ACLStream where
  address : BDAddr
  handle : Nat
  fd : Nat
deriving DecidableEq, Repr

/-- The mutable state of one `Peripheral` session that the embedded
operations touch: the properties cell, the connection slot (`stream`) and
the replay queue (`message_queue`, head = back of the deque). -/
structure SessionState where
  properties : Properties
  stream : Option ACLStream
  queue : List ACLData
deriving DecidableEq, Repr

/-- Session state of a freshly constructed `Peripheral` (peripheral.rs:88-99):
default properties, no stream, empty replay queue. -/
def initialSession : SessionState :=
  { properties := initialProperties, stream := none, queue := [] }

/-- The body of the per-datum loop of the advertising branch
(peripheral.rs:124-139): each datum overwrites its optional field; every
other datum kind is skipped. -/
def applyDatum (p : Properties) (d : LEAdvertisingData) : Properties :=
  match d with
  | .LocalName name => { p with local_name := some name }
  | .TxPowerLevel power => { p with tx_power_level := some power }
  | .ManufacturerSpecific data => { p with manufacturer_data := some data }
  | .Skipped => p

/-- The advertising-report branch of `handle_device_message`
(peripheral.rs:108-139): bump the discovery count, decode the address type,
set the scan-response flag on event type 4, then fold the advertisement
data into the optional fields. -/
def updateProperties (p : Properties) (info : LEAdvertisingInfo) : Properties :=
  let p := { p with
    discovery_count := p.discovery_count + 1
    address_type := if info.bdaddr_type == 1 then AddressType.Random else AddressType.Public }
  let p := if info.evt_type == 4 then { p with has_scan_response := true } else p
  info.data.foldl applyDatum p

/-- The replay loop of the data-packet branch (peripheral.rs:155-160):
`while !queue.is_empty() { let msg = queue.pop_back(); if handle matches
{ stream.receive(msg) } }`.  With the head-is-back list representation,
`pop_back` is head removal, so the loop walks the list front to back and
delivers the packets whose handle matches the stream's. -/
def drainQueue (h : Nat) : List ACLData → List ACLData
  | [] => []
  | msg :: rest =>
      if msg.handle == h then msg :: drainQueue h rest else drainQueue h rest

/-- Result of one `handle_device_message` call: the updated session state,
the packets handed to `stream.receive` in call order, and the handle sent
on the connection channel (for `LEConnComplete`). -/
structure HdmOut where
  st : SessionState
  delivered : List ACLData
  sentHandle : Option Nat
deriving DecidableEq, Repr

/-- Event intake `Peripheral::handle_device_message` (peripheral.rs:101-179).
`canRead` models whether `stream.try_read()` succeeds (it fails exactly
while `connect` holds the write lock on the connection slot).  The
advertising branch updates the properties; the connection-complete branch
sends the handle on the handoff channel; the data branch either delivers
(draining the whole replay queue first, then the current packet if its
handle matches) or, when the slot is locked, appends the packet to the
queue (`push_back` = cons in the head-is-back representation); a readable
but empty slot drops the packet on the floor. -/
def handle_device_message (canRead : Bool) (st : SessionState) (m : Message) : HdmOut :=
  match m with
  | .LEAdvertisingReport info =>
      { st := { st with properties := updateProperties st.properties info }
        delivered := [], sentHandle := none }
  | .LEConnComplete h =>
      { st := st, delivered := [], sentHandle := some h }
  | .ACLDataPacket d =>
      if canRead then
        match st.stream with
        | none => { st := st, delivered := [], sentHandle := none }
        | some s =>
            { st := { st with queue := [] }
              delivered := drainQueue s.handle st.queue
                ++ (if d.handle == s.handle then [d] else [])
              sentHandle := none }
      else
        { st := { st with queue := d :: st.queue }, delivered := [], sentHandle := none }
  | .Other =>
      { st := st, delivered := [], sentHandle := none }

/-- Connection query `Peripheral::is_connected` (peripheral.rs:300-304): the body that reads
the connection slot is commented out and the function returns `true`
unconditionally. -/
def is_connected (_st : SessionState) : Bool :=
  true

/-- Fold a list of advertising reports through `handle_device_message`,
as the dispatcher does for a stream of reports for this address. -/
def processReports (st : SessionState) (rs : List LEAdvertisingInfo) : SessionState :=
  rs.foldl (fun s r => (handle_device_message true s (.LEAdvertisingReport r)).st) st

/-- Error kinds of the crate's `Error` type, restricted to the variants the
embedded code produces: `NotConnected`, `TimedOut(duration)` (seconds),
OS/system errors carrying the errno (`handle_error` wraps a failing
syscall's errno), and `NotSupported(message)`. -/
inductive BtError
  | notConnected
  | timedOut (secs : Nat)
  | system (errno : Nat)
  | notSupported (msg : String)
deriving DecidableEq, Repr

/-- Decidable equality for `Except` results, used to compare abstracted
syscall outcomes. -/
instance {ε α : Type} [DecidableEq ε] [DecidableEq α] : DecidableEq (Except ε α) := fun x y =>
  match x, y with
  | .ok a, .ok b =>
      if h : a = b then isTrue (h ▸ rfl) else isFalse (fun he => h (Except.ok.inj he))
  | .error a, .error b =>
      if h : a = b then isTrue (h ▸ rfl) else isFalse (fun he => h (Except.error.inj he))
  | .ok _, .error _ => isFalse (fun he => Except.noConfusion he)
  | .error _, .ok _ => isFalse (fun he => Except.noConfusion he)

/-- Socket family constant `AF_BLUETOOTH` (libc). -/
def AF_BLUETOOTH : Nat := 31

/-- Channel identifier `ATT_CID`, the ATT protocol's fixed L2CAP channel.
Modelled from the spec: `bluez::constants` is not under `src/`; the spec
calls it "the ATT protocol's fixed channel identifier" (value 4 in BLE). -/
def ATT_CID : Nat := 4

/-- The C layout struct `SockaddrL2` (peripheral.rs:38-46). -/
structure SockaddrL2 where
  l2_family : Nat
  l2_psm : Nat
  l2_bdaddr : BDAddr
  l2_cid : Nat
  l2_bdaddr_type : Nat
deriving DecidableEq, Repr

/-- The local socket address `connect` binds to (peripheral.rs:321-327):
the adapter's own address and address type, psm 0, the ATT channel id. -/
def localSockaddr (adapterAddr : BDAddr) (adapterType : AddressType) : SockaddrL2 :=
  { l2_family := AF_BLUETOOTH
    l2_psm := 0
    l2_bdaddr := adapterAddr
    l2_cid := ATT_CID
    l2_bdaddr_type := adapterType.num }

/-- The peer socket address `connect` passes to the connect syscall
(peripheral.rs:343-349): the peripheral's device address, psm 0, the ATT
channel id, and the literal address-type value `1`. -/
def peerSockaddr (address : BDAddr) : SockaddrL2 :=
  { l2_family := AF_BLUETOOTH
    l2_psm := 0
    l2_bdaddr := address
    l2_cid := ATT_CID
    l2_bdaddr_type := 1 }

/-- Outcome of `connection_rx.recv_timeout`: a handle, a timeout, or the
channel-disconnected error. -/
inductive RecvRes
  | ok (handle : Nat)
  | timeout
  | disconnected
deriving DecidableEq, Repr

/-- Environment of one `connect` call: the result of each fallible step
(syscalls via `handle_error` yield a file descriptor or an errno; the scan
flag and `start_scan` result; the channel receive outcome). -/
structure ConnectEnv where
  socketRes : Except Nat Nat
  bindRes : Except Nat Unit
  setsockoptRes : Except Nat Unit
  connectRes : Except Nat Unit
  scanEnabled : Bool
  startScanRes : Except BtError Unit
  recvRes : RecvRes
deriving DecidableEq, Repr

/-- What a `connect` call does: either it returns a `Result` together with
the session state it leaves behind, or it diverges (`unwrap` of an error
value in the source). -/
inductive ConnectOutcome
  | ret (r : Except BtError Unit) (st : SessionState)
  | diverge
deriving DecidableEq, Repr

/-- Connection establishment `Peripheral::connect` (peripheral.rs:306-381).
With the write lock on
the connection slot held throughout: return `Ok` at once if a stream
exists; otherwise run socket, bind and setsockopt, each propagating its
error with `?`; the connect syscall's result is `.unwrap()`ed, so its
failure diverges; restart scanning (propagating its error) if the scan
flag is set; then wait on the handoff channel with the 20-second timeout:
a received handle installs the new `ACLStream` and returns `Ok`, a timeout
returns `Err(TimedOut(20s))` with the slot still empty, and a disconnected
channel is `.unwrap()`ed (diverges).  The replay queue is never touched. -/
def connect (st : SessionState) (address : BDAddr) (env : ConnectEnv) : ConnectOutcome :=
  match st.stream with
  | some _ => .ret (.ok ()) st
  | none =>
    match env.socketRes with
    | .error e => .ret (.error (.system e)) st
    | .ok fd =>
      match env.bindRes with
      | .error e => .ret (.error (.system e)) st
      | .ok _ =>
        match env.setsockoptRes with
        | .error e => .ret (.error (.system e)) st
        | .ok _ =>
          match env.connectRes with
          | .error _ => .diverge
          | .ok _ =>
            match (if env.scanEnabled then env.startScanRes else .ok ()) with
            | .error e => .ret (.error e) st
            | .ok _ =>
              match env.recvRes with
              | .ok h =>
                  .ret (.ok ()) { st with stream := some { address := address, handle := h, fd := fd } }
              | .timeout => .ret (.error (.timedOut 20)) st
              | .disconnected => .diverge

/-- Characteristic property flags (`api::CharPropFlags`), as a record of
booleans.  Modelled from the spec: the `api` crate is not under `src/`;
the spec lists "at least: read, write, write-without-response, notify,
indicate". -/
structure CharPropFlags where
  read : Bool
  write_without_response : Bool
  write : Bool
  notify : Bool
  indicate : Bool
deriving DecidableEq, Repr

/-- A GATT characteristic (`api::Characteristic`): handle range, value
handle, UUID and property flags.  Ordering and uniqueness are by handle
range (spec §3: "uniqueness is by handle range, not UUID"). -/
structure Characteristic where
  start_handle : Nat
  end_handle : Nat
  value_handle : Nat
  uuid : Nat
  properties : CharPropFlags
deriving DecidableEq, Repr

/-- The new 2-byte client-configuration value computed inside `notify`'s
response handler (peripheral.rs:217-234): on enable, set bit 0 if the
characteristic has the notify flag, else bit 1 if it has indicate; on
disable, clear the corresponding bit with the masks `0xFFFE` / `0xFFFD`. -/
def notifyNewValue (c : Characteristic) (enable : Bool) (value : Nat) : Nat :=
  if enable then
    if c.properties.notify then value ||| 0x0001
    else if c.properties.indicate then value ||| 0x0002
    else value
  else
    if c.properties.notify then value &&& 0xFFFE
    else if c.properties.indicate then value &&& 0xFFFD
    else value

/-- Strict order on characteristics by handle range (start, then end).
Modelled from the spec: the `api` crate's `Ord` derive is not under `src/`;
spec §3 orders the set by handle range. -/
def keyLt (a b : Characteristic) : Bool :=
  a.start_handle < b.start_handle
    || (a.start_handle == b.start_handle && a.end_handle < b.end_handle)

/-- Key equality by handle range (spec §3: uniqueness is by handle range). -/
def keyEq (a b : Characteristic) : Bool :=
  a.start_handle == b.start_handle && a.end_handle == b.end_handle

/-- Ordered insertion (`BTreeSet::insert`) on the ascending characteristic
list: place the new
element at its ordered position; an element with an equal key is not
re-inserted (the existing one is kept). -/
def cinsert (c : Characteristic) : List Characteristic → List Characteristic
  | [] => [c]
  | x :: xs =>
      if keyLt c x then c :: x :: xs
      else if keyEq c x then x :: xs
      else x :: cinsert c xs

/-- The insertion step of the discovery handler (peripheral.rs:420-427):
each characteristic of the response gets `end_handle := end` and is
inserted into a copy of the current set. -/
def mergeChars (cur : List Characteristic) (endH : Nat) (chars : List Characteristic) :
    List Characteristic :=
  chars.foldl (fun s c => cinsert { c with end_handle := endH } s) cur

/-- The end-handle rewrite loop body (peripheral.rs:430-435) over the
descending list: the first element's `end_handle` becomes `prev`
(initially `0xffff`), and `prev` becomes that element's
`start_handle - 1` for the next element. -/
def fixEndsDesc (prev : Nat) : List Characteristic → List Characteristic
  | [] => []
  | c :: cs => { c with end_handle := prev } :: fixEndsDesc (c.start_handle - 1) cs

/-- The full rewrite of peripheral.rs:429-435: iterate the merged ascending
set in reverse (descending) order and rewrite the end handles starting
from the literal `0xffff`.  The result is in descending order. -/
def rewriteEnds (merged : List Characteristic) : List Characteristic :=
  fixEndsDesc 0xFFFF merged.reverse

/-- Collection (`collect()`) into a `BTreeSet`: insert every element in order into an
empty set. -/
def collectSet (l : List Characteristic) : List Characteristic :=
  l.foldl (fun s c => cinsert c s) []

/-- One response-handler invocation of `discover_characteristics_in_range`
(peripheral.rs:415-447), state-transformer part: merge the response's
characteristics into the current set, rewrite the end handles in
descending order, and store the collected result. -/
def discoverStep (cur : List Characteristic) (endH : Nat)
    (chars : List Characteristic) : List Characteristic :=
  collectSet (rewriteEnds (mergeChars cur endH chars))

/-- Run the discovery handler over a sequence of responses (the pagination
recursion keeps `end` unchanged, so every step uses the same `endH`). -/
def runDiscovery (endH : Nat) (responses : List (List Characteristic))
    (cur : List Characteristic) : List Characteristic :=
  responses.foldl (fun s resp => discoverStep s endH resp) cur

/-- Checks, over a descending list, that every entry's `end_handle` is one
less than the next-higher (previous) entry's `start_handle`. -/
def descAdjacent : List Characteristic → Bool
  | [] => true
  | [_] => true
  | a :: b :: rest => (b.end_handle == a.start_handle - 1) && descAdjacent (b :: rest)

/-- Checks that the topmost entry (head of the descending list) has
`end_handle = 0xFFFF`. -/
def topmostEndMax : List Characteristic → Bool
  | [] => true
  | c :: _ => c.end_handle == 0xFFFF

/-- The WinRT `RadioKind` enumeration.  Modelled from the spec: the `winrt`
crate is external; only the `Bluetooth` discrimination matters. -/
inductive RadioKind
  | Other
  | WiFi
  | MobileBroadband
  | Bluetooth
  | FM
deriving DecidableEq, Repr

/-- One enumerated radio, carrying the result of its `get_kind()` query
(an abstract error value on failure). -/
structure Radio where
  getKindRes : Except Unit RadioKind
deriving DecidableEq, Repr

/-- The WinRT `Adapter` handle; `Adapter::new()` takes no data. -/
structure Adapter
deriving DecidableEq, Repr

/-- Adapter lookup `Manager::adapters` (manager.rs:15-28), given the enumerated radio list
(slots may be empty): scan in order; the first radio whose `get_kind()`
succeeds with `Bluetooth` yields `Ok(Adapter::new())`; empty slots and
failing or non-Bluetooth kinds are skipped; an exhausted list yields
`Err(NotSupported("no bluetooth adapter found"))`. -/
def adapters : List (Option Radio) → Except BtError Adapter
  | [] => .error (.notSupported "no bluetooth adapter found")
  | none :: rest => adapters rest
  | some r :: rest =>
      match r.getKindRes with
      | .ok RadioKind.Bluetooth => .ok ⟨⟩
      | .ok _ => adapters rest
      | .error _ => adapters rest

/-- Whether a radio slot holds a radio that reports kind Bluetooth. -/
def isBluetoothRadio : Option Radio → Bool
  | some r => r.getKindRes == Except.ok RadioKind.Bluetooth
  | none => false

/-! ### Concrete fixtures used by counterexamples and witnesses -/

/-- A property-flag set with every capability clear. -/
def flagsNone : CharPropFlags :=
  { read := false, write_without_response := false, write := false
    notify := false, indicate := false }

/-- A characteristic declaration at start handle `s`, as parsed from a
read-by-type response (value handle `s + 1`; the parsed end handle is
irrelevant because the handler overwrites it). -/
def charAt (s : Nat) : Characteristic :=
  { start_handle := s, end_handle := 0, value_handle := s + 1, uuid := 0, properties := flagsNone }

/-- The spec §8 example: one response listing declarations at handles
`0x10`, `0x20`, `0x30`. -/
def exampleResponses : List (List Characteristic) := [[charAt 0x10, charAt 0x20, charAt 0x30]]

/-- The characteristic set after running discovery once over
`exampleResponses` with range end `0xFFFF`. -/
def onceRun : List Characteristic := runDiscovery 0xFFFF exampleResponses []

/-- The characteristic set after running discovery a second time over the
same responses. -/
def twiceRun : List Characteristic := runDiscovery 0xFFFF exampleResponses onceRun

/-- Data packets for connection handle 7, in physical arrival order
`dA`, then `dB`, then `dC`. -/
def dA : ACLData := { handle := 7, data := [1] }

/-- Second packet of the replay-race scenario. -/
def dB : ACLData := { handle := 7, data := [2] }

/-- Third packet of the replay-race scenario, arriving after the
Connection exists. -/
def dC : ACLData := { handle := 7, data := [3] }

/-- A concrete peripheral device address. -/
def addrW : BDAddr := { bytes := [1, 2, 3, 4, 5, 6] }

/-- Environment of a fully successful `connect` call: every syscall
succeeds, scanning is off, and the handoff channel yields handle 7. -/
def envOkW : ConnectEnv :=
  { socketRes := .ok 3, bindRes := .ok (), setsockoptRes := .ok (), connectRes := .ok ()
    scanEnabled := false, startScanRes := .ok (), recvRes := .ok 7 }

/-- Environment whose handoff wait times out after the syscalls succeed. -/
def envTimeoutW : ConnectEnv := { envOkW with recvRes := .timeout }

/-- Environment whose connect syscall fails with errno 111. -/
def envConnFailW : ConnectEnv := { envOkW with connectRes := .error 111 }

/-- Environment whose socket-creation syscall fails with errno 13. -/
def envSockFailW : ConnectEnv := { envOkW with socketRes := .error 13 }

/-- Session state after `dA` and then `dB` arrived while the connection
slot was locked by an in-progress `connect`: both packets sit in the
replay queue (back of the deque first). -/
def queuedSession : SessionState :=
  (handle_device_message false
    (handle_device_message false initialSession (.ACLDataPacket dA)).st
    (.ACLDataPacket dB)).st

/-- The state `queuedSession` after `connect` succeeded with handle 7 on fd 3. -/
def connectedSession : SessionState :=
  { queuedSession with stream := some { address := addrW, handle := 7, fd := 3 } }

/-! ### C9: `is_connected` -/

/-- Claim C9 (confirmed): `is_connected()` unconditionally reports `true`
for every session state — before connect, while connected, and after
disconnect — regardless of whether a Connection exists. -/
theorem is_connected_always_true (st : SessionState) : is_connected st = true :=
  rfl

/-! ### C10: `Manager::adapters` -/

/-- Claim C10 (confirmed): `Manager::adapters()` returns `Ok` with a new
`Adapter` exactly when some enumerated radio reports kind Bluetooth, and
otherwise returns `NotSupported("no bluetooth adapter found")` — also when
the list is empty, no radio is of Bluetooth kind, or every `get_kind`
query fails. -/
theorem adapters_iff_bluetooth (radios : List (Option Radio)) :
    adapters radios =
      if radios.any isBluetoothRadio then Except.ok ⟨⟩
      else Except.error (BtError.notSupported "no bluetooth adapter found") := by
  induction radios with
  | nil => rfl
  | cons o rest ih =>
    cases o with
    | none => simpa [adapters, isBluetoothRadio] using ih
    | some r =>
      cases hk : r.getKindRes with
      | error e => simp [adapters, isBluetoothRadio, hk, ih]
      | ok k => cases k <;> simp [adapters, isBluetoothRadio, hk, ih]

/-! ### C3: the peer socket address used by the connect syscall -/

/-- Claim C3 (counterexample): a session whose recorded address type is
`Public` (numeric tag 0, decoded from an advertising report with
`bdaddr_type = 0`) still gets peer address-type tag 1 in the sockaddr
passed to the connect syscall, so the tag is not the recorded one. -/
theorem connect_peer_addrtype_cex :
    (handle_device_message true initialSession
        (Message.LEAdvertisingReport { bdaddr_type := 0, evt_type := 0, data := [] })
      ).st.properties.address_type = AddressType.Public
    ∧ (peerSockaddr addrW).l2_bdaddr_type = 1
    ∧ AddressType.num AddressType.Public ≠ 1 := by
  decide

/-- Claim C3 (amended): the peer sockaddr used by the connect syscall
carries the peripheral's own device address, the ATT fixed channel id and
psm 0, but its address-type tag is the constant 1 (random) regardless of
the address type recorded for the peripheral. -/
theorem connect_peer_sockaddr_fields (a : BDAddr) :
    (peerSockaddr a).l2_bdaddr = a
    ∧ (peerSockaddr a).l2_bdaddr_type = 1
    ∧ (peerSockaddr a).l2_cid = ATT_CID
    ∧ (peerSockaddr a).l2_psm = 0 :=
  ⟨rfl, rfl, rfl, rfl⟩

/-! ### C4: the end-handle rewrite after insertion -/

/-- The rewrite loop makes every entry's end handle one less than the
start handle of the next-higher entry, whatever list it is given. -/
lemma descAdjacent_fixEndsDesc (l : List Characteristic) :
    ∀ prev, descAdjacent (fixEndsDesc prev l) = true := by
  induction l with
  | nil => intro prev; rfl
  | cons c cs ih =>
    intro prev
    cases cs with
    | nil => rfl
    | cons c2 cs2 =>
      simp only [fixEndsDesc, descAdjacent, beq_self_eq_true, Bool.true_and]
      simpa only [fixEndsDesc] using ih (c.start_handle - 1)

/-- The first (topmost) entry produced by the rewrite loop always gets end
handle `0xFFFF`, the loop's initial `prev`. -/
lemma topmostEndMax_fixEndsDesc (l : List Characteristic) :
    topmostEndMax (fixEndsDesc 0xFFFF l) = true := by
  cases l with
  | nil => rfl
  | cons c cs => simp [fixEndsDesc, topmostEndMax]

/-- Claim C4 (counterexample): discovery over the requested range
`[_, 0x30]` of one declaration at `0x10` rewrites its end handle to
`0xFFFF`, not to the requested range's end `0x30`. -/
theorem discover_topmost_end_cex :
    (rewriteEnds (mergeChars [] 0x30 [charAt 0x10])).map Characteristic.end_handle = [0xFFFF]
    ∧ (0xFFFF : Nat) ≠ 0x30 := by
  decide

/-- Claim C4 (amended): after the insertion step over a requested range
`[start, end]`, the merged set is rewritten in descending handle order so
that every entry's end handle equals one less than the next-higher entry's
start handle, and the topmost entry's end handle equals the literal
`0xFFFF` — not the requested `end` — whatever `end` was requested. -/
theorem discover_rewrite_ends_spec (cur chars : List Characteristic) (endH : Nat) :
    descAdjacent (rewriteEnds (mergeChars cur endH chars)) = true
    ∧ topmostEndMax (rewriteEnds (mergeChars cur endH chars)) = true :=
  ⟨descAdjacent_fixEndsDesc (mergeChars cur endH chars).reverse 0xFFFF,
   topmostEndMax_fixEndsDesc (mergeChars cur endH chars).reverse⟩

/-! ### C5: idempotency of discovery -/

/-- Claim C5 (counterexample): running discovery twice over the spec §8
responses (declarations at `0x10`, `0x20`, `0x30`, range end `0xFFFF`)
does not yield the set a single run yields. -/
theorem discover_idempotent_cex : twiceRun ≠ onceRun := by
  decide

/-- Claim C5 (amended): discovery is not idempotent. A second run over the
same responses re-inserts each declaration with its end handle reset to the
requested range end; any declaration whose once-run end handle differs is
kept as a new, distinct handle range.  On the spec §8 example the single
run yields ranges `(0x10, 0x1F), (0x20, 0x2F), (0x30, 0xFFFF)` while the
second run yields five ranges, with start handles `0x10` and `0x20` each
appearing twice. -/
theorem discover_twice_duplicates :
    onceRun.map (fun c => (c.start_handle, c.end_handle))
      = [(0x10, 0x1F), (0x20, 0x2F), (0x30, 0xFFFF)]
    ∧ twiceRun.map (fun c => (c.start_handle, c.end_handle))
      = [(0x10, 0x0F), (0x10, 0x1F), (0x20, 0x1F), (0x20, 0x2F), (0x30, 0xFFFF)] := by
  decide

/-! ### C2: error propagation of the connect syscall steps -/

/-- Claim C2 (counterexample): with a failing connect syscall (errno 111)
and every earlier step succeeding, `connect()` diverges — the source
`.unwrap()`s the `handle_error` result at peripheral.rs:352-355 — instead
of returning the system error to the caller. -/
theorem connect_syscall_panic_cex :
    connect initialSession addrW envConnFailW = ConnectOutcome.diverge
    ∧ connect initialSession addrW envConnFailW
        ≠ ConnectOutcome.ret (Except.error (BtError.system 111)) initialSession := by
  decide

/-- Claim C2 (amended): starting from a session with no Connection, a
failing socket-creation, bind, or option-configuration syscall makes
`connect()` return the system error directly to the caller, but a failing
connect syscall makes it diverge (panic) instead. -/
theorem connect_error_propagation (st : SessionState) (a : BDAddr) (env : ConnectEnv)
    (e fd : Nat) (hs : st.stream = none) :
    (env.socketRes = .error e → connect st a env = .ret (.error (.system e)) st)
    ∧ (env.socketRes = .ok fd → env.bindRes = .error e →
        connect st a env = .ret (.error (.system e)) st)
    ∧ (env.socketRes = .ok fd → env.bindRes = .ok () → env.setsockoptRes = .error e →
        connect st a env = .ret (.error (.system e)) st)
    ∧ (env.socketRes = .ok fd → env.bindRes = .ok () → env.setsockoptRes = .ok () →
        env.connectRes = .error e → connect st a env = .diverge) := by
  refine ⟨?_, ?_, ?_, ?_⟩ <;> intros <;> simp [connect, hs, *]

/-- Witness for `connect_error_propagation`: at the concrete environments,
a failing socket syscall (errno 13) is returned as a system error and a
failing connect syscall (errno 111) diverges. -/
theorem connect_error_propagation_witness :
    connect initialSession addrW envSockFailW
      = ConnectOutcome.ret (Except.error (BtError.system 13)) initialSession
    ∧ connect initialSession addrW envConnFailW = ConnectOutcome.diverge := by
  constructor
  · exact (connect_error_propagation initialSession addrW envSockFailW 13 0 rfl).1 rfl
  · exact (connect_error_propagation initialSession addrW envConnFailW 111 3 rfl).2.2.2
      rfl rfl rfl rfl

/-! ### C6: the 20-second timeout of the handoff wait -/

/-- Claim C6 (confirmed): when no connection-complete notification arrives
within the bound after the connect syscall succeeded, `connect()` returns
`TimedOut` carrying the 20-second duration and leaves the session state —
in particular the empty Connection slot — unchanged. -/
theorem connect_timeout_spec (st : SessionState) (a : BDAddr) (env : ConnectEnv) (fd : Nat)
    (hs : st.stream = none)
    (h1 : env.socketRes = .ok fd)
    (h2 : env.bindRes = .ok ())
    (h3 : env.setsockoptRes = .ok ())
    (h4 : env.connectRes = .ok ())
    (h5 : env.scanEnabled = true → env.startScanRes = .ok ())
    (h6 : env.recvRes = .timeout) :
    connect st a env = ConnectOutcome.ret (Except.error (BtError.timedOut 20)) st
    ∧ st.stream = none := by
  refine ⟨?_, hs⟩
  by_cases hscan : env.scanEnabled
  · simp [connect, hs, h1, h2, h3, h4, h5 hscan, h6, hscan]
  · simp [connect, hs, h1, h2, h3, h4, h6, hscan]

/-- Witness for `connect_timeout_spec` at a fresh session and the concrete
timeout environment. -/
theorem connect_timeout_spec_witness :
    connect initialSession addrW envTimeoutW
      = ConnectOutcome.ret (Except.error (BtError.timedOut 20)) initialSession
    ∧ initialSession.stream = none :=
  connect_timeout_spec initialSession addrW envTimeoutW 3 rfl rfl rfl rfl rfl
    (fun _ => rfl) rfl

/-! ### C1: the replay queue across the connect race -/

/-- The replay loop delivers exactly the queued packets whose handle
matches, in queue (back-first) order. -/
lemma drainQueue_eq_filter (h : Nat) (q : List ACLData) :
    drainQueue h q = q.filter (fun m => m.handle == h) := by
  induction q with
  | nil => rfl
  | cons m rest ih =>
    by_cases hm : m.handle == h
    · simp [drainQueue, List.filter, hm, ih]
    · simp [drainQueue, List.filter, hm, ih]

/-- The `connect` call never touches the replay queue: whatever it returns, the
resulting session state carries the queue it started with. -/
lemma connect_preserves_queue (st : SessionState) (a : BDAddr) (env : ConnectEnv)
    (r : Except BtError Unit) (st2 : SessionState)
    (h : connect st a env = ConnectOutcome.ret r st2) : st2.queue = st.queue := by
  unfold connect at h
  repeat' split at h
  all_goals try simp_all
  all_goals obtain ⟨-, h2⟩ := h
  all_goals subst h2
  all_goals rfl

/-- Claim C1 (counterexample): packets `dA` then `dB` arrive for handle 7
while `connect` holds the slot lock and are queued; `connect` then
succeeds but returns with both packets still in the queue (nothing is
drained before returning), and when packet `dC` later arrives the queue is
drained newest-first, delivering `dB, dA, dC` — not the physical arrival
order `dA, dB, dC`. -/
theorem replay_queue_order_cex :
    connect queuedSession addrW envOkW = ConnectOutcome.ret (Except.ok ()) connectedSession
    ∧ connectedSession.queue = [dB, dA]
    ∧ (handle_device_message true connectedSession (Message.ACLDataPacket dC)).delivered
        = [dB, dA, dC]
    ∧ [dB, dA, dC] ≠ [dA, dB, dC] := by
  decide

/-- Claim C1 (amended): a successful `connect()` constructs the Connection
but returns with the Replay Queue untouched; the queue is drained only
when the next data packet arrives while the Connection slot is readable,
and then every queued packet whose handle matches the Connection's is
delivered exactly once, in reverse arrival order (newest first), all
before the newly arrived packet, after which the queue is empty.  (In the
head-is-back queue representation, arrival order is `queue.reverse`.) -/
theorem replay_queue_drain_behavior :
    (∀ (st : SessionState) (a : BDAddr) (env : ConnectEnv)
        (r : Except BtError Unit) (st2 : SessionState),
        connect st a env = ConnectOutcome.ret r st2 → st2.queue = st.queue)
    ∧ (∀ (s : ACLStream) (q : List ACLData) (d : ACLData) (p : Properties),
        (handle_device_message true
            { properties := p, stream := some s, queue := q }
            (Message.ACLDataPacket d)).delivered
          = ((q.reverse.filter (fun m => m.handle == s.handle)).reverse
              ++ (if d.handle == s.handle then [d] else []))
        ∧ (handle_device_message true
            { properties := p, stream := some s, queue := q }
            (Message.ACLDataPacket d)).st.queue = []) := by
  constructor
  · exact connect_preserves_queue
  · intro s q d p
    constructor
    · show drainQueue s.handle q ++ _ = _
      rw [drainQueue_eq_filter, ← List.filter_reverse, List.reverse_reverse]
    · rfl

/-- Witness for `replay_queue_drain_behavior` at the concrete race
scenario: the successful `connect` leaves both queued packets in place. -/
theorem replay_queue_drain_behavior_witness :
    connectedSession.queue = queuedSession.queue :=
  replay_queue_drain_behavior.1 queuedSession addrW envOkW (Except.ok ())
    connectedSession (by decide)

/-! ### C7: properties under sequences of advertising reports -/

/-- Left-biased choice on options (`Option.or`), used to phrase
"most recent value wins, absence never clears". -/
def orO {α : Type} (a b : Option α) : Option α :=
  match a with
  | some v => some v
  | none => b

/-- Associativity of `orO`. -/
lemma orO_assoc {α : Type} (a b c : Option α) : orO (orO a b) c = orO a (orO b c) := by
  cases a <;> rfl

/-- The value `none` is a right unit for `orO`. -/
lemma orO_none_right {α : Type} (a : Option α) : orO a none = a := by
  cases a <;> rfl

/-- The value, if any, that a single advertisement datum specifies for the
local-name field. -/
def datumName : LEAdvertisingData → Option String
  | .LocalName n => some n
  | _ => none

/-- The value, if any, that a single advertisement datum specifies for the
TX-power field. -/
def datumTx : LEAdvertisingData → Option Int
  | .TxPowerLevel p => some p
  | _ => none

/-- The value, if any, that a single advertisement datum specifies for the
manufacturer-data field. -/
def datumManu : LEAdvertisingData → Option (List Nat)
  | .ManufacturerSpecific d => some d
  | _ => none

/-- The most recent value specified by any element of the list, searching
from the end: the last element that specifies a value wins. -/
def lastSome {β α : Type} (g : β → Option α) : List β → Option α
  | [] => none
  | b :: bs => orO (lastSome g bs) (g b)

/-- Folding a step function that combines each element's specified value
left-biased onto a projected field computes the most recent specified
value, falling back to the initial field value. -/
lemma foldl_lastSome {β α : Type} (proj : Properties → Option α)
    (step : Properties → β → Properties) (g : β → Option α)
    (hstep : ∀ p b, proj (step p b) = orO (g b) (proj p)) :
    ∀ (l : List β) (p : Properties), proj (l.foldl step p) = orO (lastSome g l) (proj p) := by
  intro l
  induction l with
  | nil => intro p; rfl
  | cons b bs ih =>
    intro p
    rw [List.foldl_cons, ih, hstep, lastSome, orO_assoc]

/-- One datum updates the local-name field left-biased. -/
lemma applyDatum_local (p : Properties) (d : LEAdvertisingData) :
    (applyDatum p d).local_name = orO (datumName d) p.local_name := by
  cases d <;> rfl

/-- One datum updates the TX-power field left-biased. -/
lemma applyDatum_tx (p : Properties) (d : LEAdvertisingData) :
    (applyDatum p d).tx_power_level = orO (datumTx d) p.tx_power_level := by
  cases d <;> rfl

/-- One datum updates the manufacturer-data field left-biased. -/
lemma applyDatum_manu (p : Properties) (d : LEAdvertisingData) :
    (applyDatum p d).manufacturer_data = orO (datumManu d) p.manufacturer_data := by
  cases d <;> rfl

/-- No datum changes the discovery count. -/
lemma applyDatum_count (p : Properties) (d : LEAdvertisingData) :
    (applyDatum p d).discovery_count = p.discovery_count := by
  cases d <;> rfl

/-- One report updates the local-name field to the last name it carries,
keeping the previous value when it carries none. -/
lemma updateProperties_local (p : Properties) (r : LEAdvertisingInfo) :
    (updateProperties p r).local_name = orO (lastSome datumName r.data) p.local_name := by
  simp only [updateProperties]
  rw [foldl_lastSome Properties.local_name applyDatum datumName applyDatum_local]
  congr 1
  split <;> rfl

/-- One report updates the TX-power field to the last level it carries. -/
lemma updateProperties_tx (p : Properties) (r : LEAdvertisingInfo) :
    (updateProperties p r).tx_power_level = orO (lastSome datumTx r.data) p.tx_power_level := by
  simp only [updateProperties]
  rw [foldl_lastSome Properties.tx_power_level applyDatum datumTx applyDatum_tx]
  congr 1
  split <;> rfl

/-- One report updates the manufacturer-data field to the last payload it
carries. -/
lemma updateProperties_manu (p : Properties) (r : LEAdvertisingInfo) :
    (updateProperties p r).manufacturer_data
      = orO (lastSome datumManu r.data) p.manufacturer_data := by
  simp only [updateProperties]
  rw [foldl_lastSome Properties.manufacturer_data applyDatum datumManu applyDatum_manu]
  congr 1
  split <;> rfl

/-- One report increments the discovery count by exactly one. -/
lemma updateProperties_count (p : Properties) (r : LEAdvertisingInfo) :
    (updateProperties p r).discovery_count = p.discovery_count + 1 := by
  simp only [updateProperties]
  have h : ∀ (l : List LEAdvertisingData) (q : Properties),
      (l.foldl applyDatum q).discovery_count = q.discovery_count := by
    intro l
    induction l with
    | nil => intro q; rfl
    | cons d ds ih => intro q; rw [List.foldl_cons, ih, applyDatum_count]
  rw [h]
  split <;> rfl

/-- Processing reports through `handle_device_message` only folds
`updateProperties` over the properties cell. -/
lemma processReports_properties (rs : List LEAdvertisingInfo) :
    ∀ st : SessionState, (processReports st rs).properties
      = rs.foldl updateProperties st.properties := by
  induction rs with
  | nil => intro st; rfl
  | cons r rest ih =>
    intro st
    simp only [processReports, List.foldl_cons] at ih ⊢
    exact ih _

/-- Folding reports adds the number of reports to the discovery count. -/
lemma foldReports_count (rs : List LEAdvertisingInfo) :
    ∀ p : Properties, (rs.foldl updateProperties p).discovery_count
      = p.discovery_count + rs.length := by
  induction rs with
  | nil => intro p; rfl
  | cons r rest ih =>
    intro p
    rw [List.foldl_cons, ih, updateProperties_count, List.length_cons]
    omega

/-- Claim C7 (confirmed): after processing any sequence of advertising
reports for one address from a fresh session, the discovery count equals
the number of reports processed, and each optional field (local name, TX
power level, manufacturer data) holds the value from the most recent
report that specified it — `none` when no report ever did — so a report
that omits a field never clears a previously set value. -/
theorem advertising_properties_spec (rs : List LEAdvertisingInfo) :
    (processReports initialSession rs).properties.discovery_count = rs.length
    ∧ (processReports initialSession rs).properties.local_name
        = lastSome (fun r => lastSome datumName r.data) rs
    ∧ (processReports initialSession rs).properties.tx_power_level
        = lastSome (fun r => lastSome datumTx r.data) rs
    ∧ (processReports initialSession rs).properties.manufacturer_data
        = lastSome (fun r => lastSome datumManu r.data) rs := by
  have hp := processReports_properties rs initialSession
  refine ⟨?_, ?_, ?_, ?_⟩
  · rw [hp, foldReports_count]
    simp [initialSession, initialProperties]
  · rw [hp, foldl_lastSome Properties.local_name updateProperties
      (fun r => lastSome datumName r.data) updateProperties_local]
    simp [initialSession, initialProperties, orO_none_right]
  · rw [hp, foldl_lastSome Properties.tx_power_level updateProperties
      (fun r => lastSome datumTx r.data) updateProperties_tx]
    simp [initialSession, initialProperties, orO_none_right]
  · rw [hp, foldl_lastSome Properties.manufacturer_data updateProperties
      (fun r => lastSome datumManu r.data) updateProperties_manu]
    simp [initialSession, initialProperties, orO_none_right]

/-! ### C8: the subscription protocol's bit toggling -/

/-- Bits at positions 16 and above of a 16-bit quantity are clear. -/
lemma testBit_ge16 (m i : Nat) (hm : m < 65536) (hi : 16 ≤ i) : m.testBit i = false := by
  apply Nat.testBit_eq_false_of_lt
  calc m < 65536 := hm
    _ = 2 ^ 16 := by norm_num
    _ ≤ 2 ^ i := Nat.pow_le_pow_right (by norm_num) hi

/-- Bit `i ≠ 0` of the constant 1 is clear. -/
lemma testBit_one_ne (i : Nat) (hi : i ≠ 0) : Nat.testBit 1 i = false := by
  rcases i with _ | n
  · exact absurd rfl hi
  · exact Nat.testBit_eq_false_of_lt (Nat.one_lt_two_pow' n)

/-- Bit `i ≠ 1` of the constant 2 is clear. -/
lemma testBit_two_ne (i : Nat) (hi : i ≠ 1) : Nat.testBit 2 i = false := by
  rcases i with _ | _ | n
  · decide
  · exact absurd rfl hi
  · apply Nat.testBit_eq_false_of_lt
    calc (2 : Nat) < 4 := by norm_num
      _ = 2 ^ 2 := by norm_num
      _ ≤ 2 ^ (n + 2) := Nat.pow_le_pow_right (by norm_num) (by omega)

/-- Claim C8 (confirmed): on the descriptor-read response with 16-bit value
`v`, when the characteristic advertises notify the new value has bit 0 set
on subscribe and cleared on unsubscribe with all other bits of the 2-byte
value unchanged — also when indicate is advertised too, so notify takes
precedence; when only indicate is advertised, bit 1 is set and cleared the
same way. -/
theorem notify_bit_spec (c : Characteristic) (v : Nat) (hv : v < 65536) :
    (c.properties.notify = true →
      (notifyNewValue c true v).testBit 0 = true
      ∧ (notifyNewValue c false v).testBit 0 = false
      ∧ ∀ i, i ≠ 0 →
          (notifyNewValue c true v).testBit i = v.testBit i
          ∧ (notifyNewValue c false v).testBit i = v.testBit i)
    ∧ (c.properties.notify = false → c.properties.indicate = true →
      (notifyNewValue c true v).testBit 1 = true
      ∧ (notifyNewValue c false v).testBit 1 = false
      ∧ ∀ i, i ≠ 1 →
          (notifyNewValue c true v).testBit i = v.testBit i
          ∧ (notifyNewValue c false v).testBit i = v.testBit i) := by
  constructor
  · intro hn
    have e1 : notifyNewValue c true v = v ||| 1 := by simp [notifyNewValue, hn]
    have e2 : notifyNewValue c false v = v &&& 0xFFFE := by simp [notifyNewValue, hn]
    refine ⟨?_, ?_, ?_⟩
    · rw [e1, Nat.testBit_or]
      simp
    · rw [e2, Nat.testBit_and]
      have hm : Nat.testBit 0xFFFE 0 = false := by decide
      simp [hm]
    · intro i hi0
      constructor
      · rw [e1, Nat.testBit_or, testBit_one_ne i hi0]
        simp
      · rw [e2, Nat.testBit_and]
        by_cases h16 : i < 16
        · have hm : Nat.testBit 0xFFFE i = true := by
            interval_cases i <;> first | exact absurd rfl hi0 | decide
          simp [hm]
        · have hv2 : v.testBit i = false := testBit_ge16 v i hv (le_of_not_lt h16)
          simp [hv2]
  · intro hn hind
    have e1 : notifyNewValue c true v = v ||| 2 := by simp [notifyNewValue, hn, hind]
    have e2 : notifyNewValue c false v = v &&& 0xFFFD := by simp [notifyNewValue, hn, hind]
    refine ⟨?_, ?_, ?_⟩
    · rw [e1, Nat.testBit_or]
      have hm : Nat.testBit 2 1 = true := by decide
      simp [hm]
    · rw [e2, Nat.testBit_and]
      have hm : Nat.testBit 0xFFFD 1 = false := by decide
      simp [hm]
    · intro i hi1
      constructor
      · rw [e1, Nat.testBit_or, testBit_two_ne i hi1]
        simp
      · rw [e2, Nat.testBit_and]
        by_cases h16 : i < 16
        · have hm : Nat.testBit 0xFFFD i = true := by
            interval_cases i <;> first | exact absurd rfl hi1 | decide
          simp [hm]
        · have hv2 : v.testBit i = false := testBit_ge16 v i hv (le_of_not_lt h16)
          simp [hv2]

/-- A characteristic advertising both notify and indicate. -/
def charBothW : Characteristic :=
  { charAt 0x10 with properties := { flagsNone with notify := true, indicate := true } }

/-- Witness for `notify_bit_spec`: for a characteristic with both notify
and indicate and value 2, subscribe sets bit 0 (notify precedence),
unsubscribe clears it, and bit 1 is untouched. -/
theorem notify_bit_spec_witness :
    (notifyNewValue charBothW true 2).testBit 0 = true
    ∧ (notifyNewValue charBothW false 2).testBit 0 = false
    ∧ (notifyNewValue charBothW true 2).testBit 1 = Nat.testBit 2 1
    ∧ (notifyNewValue charBothW false 2).testBit 1 = Nat.testBit 2 1 := by
  have h := (notify_bit_spec charBothW 2 (by decide)).1 rfl
  exact ⟨h.1, h.2.1, (h.2.2 1 (by decide)).1, (h.2.2 1 (by decide)).2⟩
